import Mathlib

/-!
Verification development for the ultralight-wrapping render orchestration layer.

The definitions below are a shallow embedding of the Rust sources:
  - src/gpu.rs    : the GPU Command Executor (OpenglCommandReceiver) and its
                    id-indexed resource registries;
  - src/render.rs : the Render Loop (renderer_main), Task Mailbox
                    (renderer_run / renderer_pending) and activity throttling;
  - src/view.rs   : the foreign-callable view operations
                    (ultralightui_create_view, ultralightui_remove_view,
                    ultralightui_copy_from_view, input reporting).

Registries (Rust HashMap) are embedded as association lists with
insert-overwrites semantics; native GL handle allocation (glGen*) is embedded
as a fresh-handle counter.  GL side effects that do not influence control flow
or registry contents (uploads, binds, clears, actual draws) are external API
calls and are not part of the embedded state; the panic / no-panic structure of
every executor branch is preserved exactly, with `Option` (none = the process
aborts via panic).
-/

namespace UltralightWrapping

/-- Association-list registry with the lookup/insert/remove semantics of the
Rust HashMap uses in gpu.rs and render.rs: insert overwrites an existing key,
remove deletes the entry if present. -/
abbrev Registry (α : Type) := List (Nat × α)

def removeA {α : Type} (k : Nat) (m : Registry α) : Registry α :=
  m.filter (fun p => p.1 ≠ k)

def insertA {α : Type} (k : Nat) (v : α) (m : Registry α) : Registry α :=
  (k, v) :: removeA k m

def lookupA {α : Type} (k : Nat) : Registry α → Option α
  | [] => none
  | p :: rest => if p.1 = k then some p.2 else lookupA k rest

theorem lookupA_insertA_self {α : Type} (k : Nat) (v : α) (m : Registry α) :
    lookupA k (insertA k v m) = some v := by
  simp [lookupA, insertA]

theorem lookupA_removeA_ne {α : Type} (k k' : Nat) (m : Registry α)
    (h : k' ≠ k) : lookupA k' (removeA k m) = lookupA k' m := by
  induction m with
  | nil => rfl
  | cons p rest ih =>
    by_cases hp : p.1 = k
    · have hne : k ≠ k' := fun he => h he.symm
      simp [removeA, List.filter_cons, hp, lookupA, hne] at ih ⊢
      simpa [removeA] using ih
    · simp only [removeA, List.filter_cons] at ih ⊢
      have hd : decide (p.1 ≠ k) = true := by simpa using hp
      rw [hd]
      by_cases hk' : p.1 = k'
      · simp [lookupA, hk']
      · simp [lookupA, hk']
        simpa [removeA] using ih

theorem lookupA_removeA_self {α : Type} (k : Nat) (m : Registry α) :
    lookupA k (removeA k m) = none := by
  induction m with
  | nil => rfl
  | cons p rest ih =>
    by_cases hp : p.1 = k
    · simpa [removeA, List.filter_cons, hp] using ih
    · have hd : decide (p.1 ≠ k) = true := by simpa using hp
      simp only [removeA, List.filter_cons, hd] at ih ⊢
      simpa [lookupA, hp, removeA] using ih

theorem lookupA_insertA_ne {α : Type} (k k' : Nat) (v : α) (m : Registry α)
    (h : k' ≠ k) : lookupA k' (insertA k v m) = lookupA k' m := by
  have hne : k ≠ k' := fun he => h he.symm
  simp [insertA, lookupA, hne, lookupA_removeA_ne k k' m h]

theorem removeA_absent {α : Type} (k : Nat) (m : Registry α)
    (h : lookupA k m = none) : removeA k m = m := by
  induction m with
  | nil => rfl
  | cons p rest ih =>
    simp only [lookupA] at h
    by_cases hp : p.1 = k
    · simp [hp] at h
    · have hd : decide (p.1 ≠ k) = true := by simpa using hp
      simp only [removeA, List.filter_cons, hd, cond_true]
      simp only [hp, if_false] at h
      have := ih (by simpa [lookupA] using h)
      simpa [removeA] using congrArg (List.cons p) this

/-! ## Data model: views (src/view.rs, src/render.rs) -/

/-- The render target of a view (ul_next RenderTarget): the backing texture id
in the GPU registries plus the pixel dimensions read by copy_from_view. -/
structure RenderTarget where
  texture_id : Nat
  width : Nat
  height : Nat
  deriving DecidableEq, Repr

/-- A live web view as the view registry stores it: the creation parameters
plus its render target (view.render_target() returns an Option in the
bindings; copy_from_view unwraps it). -/
structure View where
  url : String
  width : Nat
  height : Nat
  transparent : Bool
  render_target : Option RenderTarget
  deriving DecidableEq, Repr

/-! ## copy_from_view (src/view.rs lines 266-326)

The closure submitted by ultralightui_copy_from_view runs against the view
registry and the GL renderer.  The caller buffer is embedded as a list of
bytes whose length is buf_size.  Pixel readback (glGetTexImage) fills the
first width*height*4 bytes from the texture image; the texture content is an
external input, embedded as a function from native handle and byte offset to
byte value. -/

/-- Overwrite the first n bytes of buf with data, leaving the rest unchanged
(the effect of glGetTexImage writing n bytes into the caller buffer). -/
def writePrefix (buf : List Nat) (n : Nat) (data : Nat → Nat) : List Nat :=
  (List.range buf.length).map (fun i => if i < n then data i else buf.getD i 0)

/-- Outcome of one copy_from_view task: the caller buffer after the call, and
which diagnostics were printed (size shortfall error, size-larger warning). -/
structure CopyOutcome where
  buf : List Nat
  shortfall_reported : Bool
  warning_reported : Bool
  deriving DecidableEq, Repr

/-- The copy_from_view closure body (src/view.rs 270-325).  `gl` is the GL
renderer slot (none = GL_RENDERER not initialized, a panic); its payload is
the texture registry consulted through get_texture_handle.  A `none` result
is a fatal (panicking) branch. -/
def copy_from_view_task (views : Registry View) (gl : Option (Registry Nat))
    (texImage : Nat → Nat → Nat) (view_id : Nat) (buf : List Nat) :
    Option CopyOutcome :=
  match lookupA view_id views with
  | none => some ⟨buf, false, false⟩
  | some view =>
    match view.render_target with
    | none => none
    | some target =>
      match gl with
      | none => none
      | some textures =>
        match lookupA target.texture_id textures with
        | none => some ⟨buf.map (fun _ => 0), false, false⟩
        | some tex =>
          let width := target.width
          let height := target.height
          if buf.length < width * height * 4 then
            some ⟨buf, true, false⟩
          else
            some ⟨writePrefix buf (width * height * 4) (texImage tex), false,
                  decide (buf.length > width * height * 4)⟩

/-! ## GPU Command Executor (src/gpu.rs, OpenglCommandReceiver)

The executor state is the three id-indexed registries plus a fresh-handle
counter standing for the native glGen* allocators (GL object names start at 1,
and handle 0 means "no texture bound" in draw_geometry).  The f32 payloads of
commands (pixel data, vertex data, transform matrices, uniform blocks) feed GL
uploads only and never influence the executor control flow or the registries;
they are carried opaquely as integers.  A `none` result of an execution step
is a fatal (panicking) branch of the Rust code. -/

/-- Pixel formats accepted by create_texture / update_texture. -/
inductive BitmapFormat where
  | A8Unorm
  | Bgra8UnormSrgb
  deriving DecidableEq, Repr

/-- The bitmap payload of a texture command (ul_next OwnedBitmap): the fields
the executor reads.  pixels = none embeds an empty bitmap (null data). -/
structure Bitmap where
  format : BitmapFormat
  width : Nat
  height : Nat
  row_bytes : Nat
  bpp : Nat
  pixels : Option (List Nat)
  deriving DecidableEq, Repr

/-- The render-buffer payload of CreateRenderBuffer (ul_next RenderBuffer). -/
structure RenderBuffer where
  texture_id : Nat
  width : Nat
  height : Nat
  has_depth_buffer : Bool
  has_stencil_buffer : Bool
  deriving DecidableEq, Repr

/-- The two fixed vertex layouts of create_geometry. -/
inductive VertexBufferFormat where
  | Format_2f_4ub_2f
  | Format_2f_4ub_2f_2f_28f
  deriving DecidableEq, Repr

structure VertexBuffer where
  format : VertexBufferFormat
  buffer : List Nat
  deriving DecidableEq, Repr

structure IndexBuffer where
  buffer : List Nat
  deriving DecidableEq, Repr

inductive ShaderType where
  | Fill
  | FillPath
  deriving DecidableEq, Repr

structure ScissorRect where
  left : Int
  top : Int
  right : Int
  bottom : Int
  deriving DecidableEq, Repr

/-- The per-draw GPU state (ul_next GpuState) as draw_geometry consumes it.
transform / uniform_scalar / uniform_vector / clip are f32 payloads uploaded
verbatim to GL; they are opaque to the control flow and carried as integers. -/
structure GpuState where
  render_buffer_id : Nat
  viewport_width : Nat
  viewport_height : Nat
  enable_blend : Bool
  enable_scissor : Bool
  scissor_rect : ScissorRect
  shader_type : ShaderType
  texture_1_id : Option Nat
  texture_2_id : Option Nat
  texture_3_id : Option Nat
  transform : List Int
  uniform_scalar : List Int
  uniform_vector : List Int
  clip : List Int
  clip_size : Nat
  deriving DecidableEq, Repr

/-- A draw-list entry (ul_next GpuCommand). -/
inductive GpuCommand where
  | ClearRenderBuffer (render_buffer_id : Nat)
  | DrawGeometry (gpu_state : GpuState) (geometry_id : Nat)
      (indices_offset : Nat) (indices_count : Nat)
  deriving DecidableEq, Repr

/-- The typed GPU command vocabulary carried by the channel (gpu.rs enum
OpenglCommand). -/
inductive OpenglCommand where
  | CreateTexture (id : Nat) (bitmap : Bitmap)
  | UpdateTexture (id : Nat) (bitmap : Bitmap)
  | DestroyTexture (id : Nat)
  | CreateRenderBuffer (id : Nat) (rb : RenderBuffer)
  | DestroyRenderBuffer (id : Nat)
  | CreateGeometry (id : Nat) (vb : VertexBuffer) (ib : IndexBuffer)
  | UpdateGeometry (id : Nat) (vb : VertexBuffer) (ib : IndexBuffer)
  | DestroyGeometry (id : Nat)
  | UpdateCommandList (cmds : List GpuCommand)
  deriving DecidableEq, Repr

/-- Executor state: texture id → native handle, render-buffer id → native
framebuffer handle, geometry id → (VAO, VBO, IBO) handle triple, plus the
fresh native-handle counter (glGen*). -/
structure GLState where
  textures : Registry Nat
  render_buffers : Registry Nat
  geometries : Registry (Nat × Nat × Nat)
  nextHandle : Nat
  deriving DecidableEq, Repr

/-- The executor state right after OpenglCommandReceiver::new: empty
registries; GL object names start at 1. -/
def GLState.init : GLState := ⟨[], [], [], 1⟩

/-- create_texture (gpu.rs 268-315): generate a native texture handle, upload
the bitmap, and record the handle under texture_id.  Never fatal. -/
def create_texture (s : GLState) (texture_id : Nat) (_bitmap : Bitmap) : GLState :=
  { s with textures := insertA texture_id s.nextHandle s.textures,
           nextHandle := s.nextHandle + 1 }

/-- update_texture (gpu.rs 317-355): re-upload pixel data into the existing
native texture when the id is present; a silent no-op on the registry either
way, and never fatal. -/
def update_texture (s : GLState) (_texture_id : Nat) (_bitmap : Bitmap) : GLState :=
  s

/-- destroy_texture (gpu.rs 357-363): `if let Some(id) = remove` — delete the
native texture when present, silently do nothing when absent.  Never fatal. -/
def destroy_texture (s : GLState) (texture_id : Nat) : GLState :=
  { s with textures := removeA texture_id s.textures }

/-- create_render_buffer (gpu.rs 365-478): generate a framebuffer, attach the
texture behind render_buffer.texture_id; the branch for an unknown texture id
panics ("Texture ID not found"), embedded as none.  On success the
framebuffer handle is recorded under render_buffer_id. -/
def create_render_buffer (s : GLState) (render_buffer_id : Nat)
    (render_buffer : RenderBuffer) : Option GLState :=
  match lookupA render_buffer.texture_id s.textures with
  | none => none
  | some _tex =>
    some { s with
            render_buffers := insertA render_buffer_id s.nextHandle s.render_buffers,
            nextHandle := s.nextHandle + 1 }

/-- destroy_render_buffer (gpu.rs 480-486): delete when present, silently do
nothing when absent.  Never fatal. -/
def destroy_render_buffer (s : GLState) (render_buffer_id : Nat) : GLState :=
  { s with render_buffers := removeA render_buffer_id s.render_buffers }

/-- create_geometry (gpu.rs 488-612): generate a VAO and two buffer objects,
upload vertex and index data, record the triple under geometry_id.  Never
fatal (the stride assertions hold by construction for both fixed layouts). -/
def create_geometry (s : GLState) (geometry_id : Nat)
    (_vb : VertexBuffer) (_ib : IndexBuffer) : GLState :=
  { s with
      geometries := insertA geometry_id
        (s.nextHandle, s.nextHandle + 1, s.nextHandle + 2) s.geometries,
      nextHandle := s.nextHandle + 3 }

/-- update_geometry (gpu.rs 614-645): re-upload into the existing buffers when
the id is present; silent no-op when absent.  Never fatal. -/
def update_geometry (s : GLState) (_geometry_id : Nat)
    (_vb : VertexBuffer) (_ib : IndexBuffer) : GLState :=
  s

/-- destroy_geometry (gpu.rs 647-655): delete the handle triple when present,
silently do nothing when absent.  Never fatal. -/
def destroy_geometry (s : GLState) (geometry_id : Nat) : GLState :=
  { s with geometries := removeA geometry_id s.geometries }

/-- clear_render_buffer (gpu.rs 674-685): bind and clear when the id is
present; panic ("Render buffer ID not found") when absent. -/
def clear_render_buffer (s : GLState) (render_buffer_id : Nat) : Option GLState :=
  match lookupA render_buffer_id s.render_buffers with
  | some _id => some s
  | none => none

/-- The texture-binding resolution of draw_geometry (gpu.rs 742-752):
`o.map(|id| self.textures.get(&id)).flatten().copied().unwrap_or(0)` — an
absent option or an unknown id binds native handle 0. -/
def lookupTexHandle (textures : Registry Nat) (o : Option Nat) : Nat :=
  ((o.bind (fun id => lookupA id textures)).getD 0)

/-- draw_geometry (gpu.rs 687-849): unwrap the target framebuffer (panic when
the render-buffer id is unknown), set viewport/blend/scissor/program, resolve
the three texture bindings (absent → handle 0), unwrap the geometry VAO
(panic when unknown), upload uniforms through three transient uniform buffers
and draw.  Registries are unchanged; the result records the three bound
texture handles. -/
def draw_geometry (s : GLState) (gpu_state : GpuState) (geometry_id : Nat)
    (_indices_offset : Nat) (_indices_count : Nat) :
    Option (GLState × (Nat × Nat × Nat)) :=
  match lookupA gpu_state.render_buffer_id s.render_buffers with
  | none => none
  | some _fbo =>
    let tex1 := lookupTexHandle s.textures gpu_state.texture_1_id
    let tex2 := lookupTexHandle s.textures gpu_state.texture_2_id
    let tex3 := lookupTexHandle s.textures gpu_state.texture_3_id
    match lookupA geometry_id s.geometries with
    | none => none
    | some _vao => some (s, (tex1, tex2, tex3))

/-- update_command_list (gpu.rs 657-672): run the draw list in order; a fatal
branch in any operation aborts (none). -/
def update_command_list (s : GLState) : List GpuCommand → Option GLState
  | [] => some s
  | GpuCommand.ClearRenderBuffer rb :: rest =>
    match clear_render_buffer s rb with
    | none => none
    | some s' => update_command_list s' rest
  | GpuCommand.DrawGeometry gs gid off cnt :: rest =>
    match draw_geometry s gs gid off cnt with
    | none => none
    | some (s', _) => update_command_list s' rest

/-- One step of OpenglCommandReceiver::render (gpu.rs 246-266): dispatch one
received command to the executor. -/
def execCommand (s : GLState) : OpenglCommand → Option GLState
  | OpenglCommand.CreateTexture id bitmap => some (create_texture s id bitmap)
  | OpenglCommand.UpdateTexture id bitmap => some (update_texture s id bitmap)
  | OpenglCommand.DestroyTexture id => some (destroy_texture s id)
  | OpenglCommand.CreateRenderBuffer id rb => create_render_buffer s id rb
  | OpenglCommand.DestroyRenderBuffer id => some (destroy_render_buffer s id)
  | OpenglCommand.CreateGeometry id vb ib => some (create_geometry s id vb ib)
  | OpenglCommand.UpdateGeometry id vb ib => some (update_geometry s id vb ib)
  | OpenglCommand.DestroyGeometry id => some (destroy_geometry s id)
  | OpenglCommand.UpdateCommandList cmds => update_command_list s cmds

/-- The drain loop of OpenglCommandReceiver::render: execute every currently
available command in receipt order. -/
def execCommands (s : GLState) : List OpenglCommand → Option GLState
  | [] => some s
  | c :: rest =>
    match execCommand s c with
    | none => none
    | some s' => execCommands s' rest

/-! ## Render Loop, Task Mailbox and view tasks (src/render.rs, src/view.rs)

A task (render.rs RenderCallback) mutates the view registry, the activity
map and the force-redraw flag and returns the "keep scheduled" boolean; it is
paired with an optional completion signal (the Arc-ed condition variable of
renderer_run), embedded as an optional signal identifier.  Timestamps
(std::time::Instant) are embedded as milliseconds. -/

/-- The state a task runs against: the View Registry, the last-activity map
(milliseconds) and the force-redraw flag. -/
structure LoopState where
  views : Registry View
  views_updated : Registry Nat
  force_redraw : Bool

/-- render.rs RenderCallback: a closure over (views, views_updated,
force_redraw) returning the keep-scheduled boolean. -/
abbrev RenderCallback := LoopState → LoopState × Bool

/-- render.rs RenderCallbackInfo: a callback plus its optional completion
signal (a condition-variable identity). -/
abbrev RenderCallbackInfo := RenderCallback × Option Nat

/-- The task-batch step of renderer_main (render.rs 327-335): run each drained
task in order against the shared state, collect tasks that returned true into
the next list, and fire every completion signal after its task ran.  Returns
(final state, next task list, fired signals in firing order). -/
def processTasks : List RenderCallbackInfo → LoopState →
    LoopState × List RenderCallbackInfo × List Nat
  | [], st => (st, [], [])
  | (f, c) :: rest, st =>
    let r := f st
    let out := processTasks rest r.1
    (out.1,
     (if r.2 then [(f, c)] else []) ++ out.2.1,
     (match c with | some sid => [sid] | none => []) ++ out.2.2)

/-- Reference execution trace: each task of the batch applied exactly once, in
order, threading the state; returns the per-task keep-scheduled results and
the final state. -/
def runSeq : List RenderCallbackInfo → LoopState → List Bool × LoopState
  | [], st => ([], st)
  | (f, _) :: rest, st =>
    let r := f st
    let out := runSeq rest r.1
    (r.2 :: out.1, out.2)

/-- The activity-throttling pass of renderer_main (render.rs 306-314): for
every live view whose timestamp is present, mark it needs-paint when the
elapsed time since last activity is below 1000 ms, and otherwise drop the
timestamp entry.  Returns (ids marked needs-paint, updated activity map).
Nat subtraction embeds Instant::elapsed, which is nonnegative. -/
def refreshViews : Registry View → Registry Nat → Nat → List Nat × Registry Nat
  | [], vu, _ => ([], vu)
  | (id, _) :: rest, vu, now =>
    match lookupA id vu with
    | none => refreshViews rest vu now
    | some ts =>
      if now - ts < 1000 then
        let out := refreshViews rest vu now
        (id :: out.1, out.2)
      else
        refreshViews rest (removeA id vu) now

/-- The closure body of ultralightui_create_view (view.rs 26-50): the new id
is the current size of the view registry; the view and its activity timestamp
are inserted under that id and the id is stored into the shared cell. -/
def create_view_task (st : LoopState) (v : View) (now : Nat) : Nat × LoopState :=
  let id := st.views.length
  (id, { st with views := insertA id v st.views,
                 views_updated := insertA id now st.views_updated })

/-- The closure body of ultralightui_remove_view (view.rs 69-72): drop the
registry entry (the activity map is left as is). -/
def remove_view_task (st : LoopState) (view_id : Nat) : LoopState :=
  { st with views := removeA view_id st.views }

/-- View-registry operations reachable from the foreign-call surface that
create or remove entries. -/
inductive ViewOp where
  | create (v : View) (now : Nat)
  | remove (id : Nat)

/-- Run a sequence of create/remove operations, collecting the id returned by
each create in order. -/
def runViewOps : List ViewOp → LoopState → List Nat × LoopState
  | [], st => ([], st)
  | ViewOp.create v now :: rest, st =>
    let r := create_view_task st v now
    let out := runViewOps rest r.2
    (r.1 :: out.1, out.2)
  | ViewOp.remove id :: rest, st =>
    runViewOps rest (remove_view_task st id)

/-- renderer_run (render.rs 39-52) combined with the loop execution of the
submitted task: when the mailbox slot holds no list (the Render Loop is not
running) the task is refused, never executed, and false is returned; when it
holds a list the caller blocks until the loop has executed the task, so the
task takes effect synchronously and true is returned. -/
def renderer_run (mailbox : Option LoopState) (task : RenderCallback) :
    Bool × Option LoopState :=
  match mailbox with
  | none => (false, none)
  | some st => (true, some (task st).1)

/-- ultralightui_create_view (view.rs 13-53): the shared id cell starts at 0;
the blocking task stores the assigned id into it; the call returns the cell
content, which is still 0 when the mailbox refused the task.  Returns the
view id handed to the caller and the mailbox state after the call. -/
def ultralightui_create_view (mailbox : Option LoopState) (v : View) (now : Nat) :
    Nat × Option LoopState :=
  match mailbox with
  | none => (0, none)
  | some st =>
    let r := create_view_task st v now
    (r.1, some r.2)

/-- The empty loop state installed when the Render Loop enters Running
(render.rs 300-301). -/
def emptyLoopState : LoopState := ⟨[], [], false⟩

/-- The id references a draw-list operation makes into the registries: the
target of a clear, and the target and geometry of a draw (texture bindings
are deliberately excluded — they never abort). -/
def drawRefsPresent (s : GLState) : GpuCommand → Bool
  | GpuCommand.ClearRenderBuffer rb => (lookupA rb s.render_buffers).isSome
  | GpuCommand.DrawGeometry gs gid _ _ =>
      (lookupA gs.render_buffer_id s.render_buffers).isSome &&
      (lookupA gid s.geometries).isSome

/-- A draw state binding texture ids 9 and 7 (both absent from the fixture
texture registry) and one absent binding slot. -/
def gpuStateFixture : GpuState :=
  { render_buffer_id := 2
    viewport_width := 800
    viewport_height := 600
    enable_blend := true
    enable_scissor := false
    scissor_rect := ⟨0, 0, 0, 0⟩
    shader_type := ShaderType.Fill
    texture_1_id := some 9
    texture_2_id := none
    texture_3_id := some 7
    transform := []
    uniform_scalar := []
    uniform_vector := []
    clip := []
    clip_size := 0 }

/-- An executor state with render buffer 2 and geometry 3 present and no
textures. -/
def glFixture : GLState :=
  { textures := []
    render_buffers := [(2, 10)]
    geometries := [(3, (4, 5, 6))]
    nextHandle := 11 }

/-! ## Shared helper lemmas -/

theorem lookupA_eq_none_of_not_mem {α : Type} (k : Nat) (m : Registry α)
    (h : k ∉ m.map Prod.fst) : lookupA k m = none := by
  induction m with
  | nil => rfl
  | cons p rest ih =>
    simp only [List.map_cons, List.mem_cons, not_or] at h
    have hne : p.1 ≠ k := fun he => h.1 he.symm
    simp [lookupA, hne, ih h.2]

theorem map_eq_zero_replicate (buf : List Nat) :
    buf.map (fun _ => 0) = List.replicate buf.length 0 := by
  induction buf with
  | nil => rfl
  | cons b rest ih => simp [List.replicate, ih]

/-! ## Claims about copy_from_view (C1, C8) -/

/-- Claim C1 as frozen is false: on a view whose backing texture is not yet
resolved, copy_from_view zero-fills the caller buffer before any size check,
so with an 800×600 view and buffer size 100 (smaller than 800*600*4) the call
reports no shortfall and overwrites the buffer. -/
theorem copy_from_view_shortfall_unresolved_cex :
    (List.replicate 100 1).length < 800 * 600 * 4 ∧
    copy_from_view_task [(0, ⟨"about:blank", 800, 600, false, some ⟨7, 800, 600⟩⟩)]
        (some []) (fun _ _ => 0) 0 (List.replicate 100 1) =
      some ⟨List.replicate 100 0, false, false⟩ ∧
    List.replicate 100 (0 : Nat) ≠ List.replicate 100 1 := by
  decide

/-- Claim C1 (amended): for copy_from_view on a registered view whose backing
texture is resolved, a buffer size below width*height*4 makes the call report
the size shortfall and leave the caller buffer unchanged; the unresolved case
is exempt (it zero-fills the buffer with no size check). -/
theorem copy_from_view_shortfall_reports_and_preserves
    (views : Registry View) (textures : Registry Nat) (texImage : Nat → Nat → Nat)
    (view_id : Nat) (buf : List Nat) (v : View) (rt : RenderTarget) (tex : Nat)
    (hv : lookupA view_id views = some v)
    (hrt : v.render_target = some rt)
    (htex : lookupA rt.texture_id textures = some tex)
    (hsize : buf.length < rt.width * rt.height * 4) :
    copy_from_view_task views (some textures) texImage view_id buf =
      some ⟨buf, true, false⟩ := by
  simp [copy_from_view_task, hv, hrt, htex, hsize]

/-- Witness for the amended C1 theorem at the 800×600 / 100-byte scenario of
the specification. -/
theorem copy_from_view_shortfall_reports_and_preserves_witness :
    copy_from_view_task [(0, ⟨"about:blank", 800, 600, false, some ⟨7, 800, 600⟩⟩)]
        (some [(7, 42)]) (fun _ _ => 0) 0 (List.replicate 100 1) =
      some ⟨List.replicate 100 1, true, false⟩ :=
  copy_from_view_shortfall_reports_and_preserves
    [(0, ⟨"about:blank", 800, 600, false, some ⟨7, 800, 600⟩⟩)] [(7, 42)]
    (fun _ _ => 0) 0 (List.replicate 100 1)
    ⟨"about:blank", 800, 600, false, some ⟨7, 800, 600⟩⟩ ⟨7, 800, 600⟩ 42
    (by decide) (by decide) (by decide) (by decide)

/-- Claim C8: copy_from_view on a registered view whose backing texture id has
no entry in the texture registry sets every one of the buffer bytes to zero
(the result is the all-zero buffer of the same length) and completes without
reaching a fatal branch. -/
theorem copy_from_view_unresolved_zero_fills
    (views : Registry View) (textures : Registry Nat) (texImage : Nat → Nat → Nat)
    (view_id : Nat) (buf : List Nat) (v : View) (rt : RenderTarget)
    (hv : lookupA view_id views = some v)
    (hrt : v.render_target = some rt)
    (htex : lookupA rt.texture_id textures = none) :
    copy_from_view_task views (some textures) texImage view_id buf =
      some ⟨List.replicate buf.length 0, false, false⟩ := by
  simp [copy_from_view_task, hv, hrt, htex, map_eq_zero_replicate]

/-- Witness for the C8 theorem at an 800×600 view with an empty texture
registry and a 100-byte buffer of ones. -/
theorem copy_from_view_unresolved_zero_fills_witness :
    copy_from_view_task [(0, ⟨"about:blank", 800, 600, false, some ⟨7, 800, 600⟩⟩)]
        (some []) (fun _ _ => 0) 0 (List.replicate 100 1) =
      some ⟨List.replicate 100 0, false, false⟩ :=
  copy_from_view_unresolved_zero_fills
    [(0, ⟨"about:blank", 800, 600, false, some ⟨7, 800, 600⟩⟩)] []
    (fun _ _ => 0) 0 (List.replicate 100 1)
    ⟨"about:blank", 800, 600, false, some ⟨7, 800, 600⟩⟩ ⟨7, 800, 600⟩
    (by decide) (by decide) (by decide)

/-! ## Claim about view id assignment (C2) -/

/-- Claim C2 as frozen is false: create_view assigns the current registry size
as the id, so after create (id 0), create (id 1), remove_view 0, the next
create_view returns id 1 — an id already held by a live view — and its insert
overwrites that entry (the registry still holds one view, now the new one). -/
theorem view_id_reuse_cex :
    (runViewOps [ViewOp.create ⟨"a", 800, 600, false, none⟩ 0,
                 ViewOp.create ⟨"b", 800, 600, false, none⟩ 0,
                 ViewOp.remove 0,
                 ViewOp.create ⟨"c", 800, 600, false, none⟩ 0]
        emptyLoopState).1 = [0, 1, 1] ∧
    (runViewOps [ViewOp.create ⟨"a", 800, 600, false, none⟩ 0,
                 ViewOp.create ⟨"b", 800, 600, false, none⟩ 0,
                 ViewOp.remove 0] emptyLoopState).2.views.map Prod.fst = [1] ∧
    (runViewOps [ViewOp.create ⟨"a", 800, 600, false, none⟩ 0,
                 ViewOp.create ⟨"b", 800, 600, false, none⟩ 0,
                 ViewOp.remove 0,
                 ViewOp.create ⟨"c", 800, 600, false, none⟩ 0]
        emptyLoopState).2.views =
      [(1, ⟨"c", 800, 600, false, none⟩)] := by
  decide

/-- In a creates-only run starting from a registry whose key set is exactly
{0, …, len−1}, the assigned ids are the next consecutive naturals and the
final key set is again an initial segment. -/
theorem runViewOps_creates_spec (creates : List (View × Nat)) (st : LoopState)
    (h : st.views.map Prod.fst = (List.range st.views.length).reverse) :
    (runViewOps (creates.map fun p => ViewOp.create p.1 p.2) st).1 =
      List.range' st.views.length creates.length ∧
    (runViewOps (creates.map fun p => ViewOp.create p.1 p.2) st).2.views.map
        Prod.fst =
      (List.range (st.views.length + creates.length)).reverse := by
  induction creates generalizing st with
  | nil => simpa [runViewOps] using h
  | cons p rest ih =>
    have hnotmem : st.views.length ∉ st.views.map Prod.fst := by
      rw [h]
      simp
    have hnone : lookupA st.views.length st.views = none :=
      lookupA_eq_none_of_not_mem _ _ hnotmem
    have hrm : removeA st.views.length st.views = st.views :=
      removeA_absent _ _ hnone
    have hlen : (insertA st.views.length p.1 st.views).length =
        st.views.length + 1 := by
      simp [insertA, hrm]
    have hkeys : (insertA st.views.length p.1 st.views).map Prod.fst =
        (List.range (insertA st.views.length p.1 st.views).length).reverse := by
      rw [hlen, List.range_succ]
      simp [insertA, hrm, h]
    have hmain := ih
      { st with views := insertA st.views.length p.1 st.views,
                views_updated := insertA st.views.length p.2 st.views_updated }
      (by simpa using hkeys)
    simp only [LoopState.mk.injEq] at hmain
    simp only [List.map_cons, runViewOps, create_view_task] at hmain ⊢
    constructor
    · rw [List.length_cons, List.range'_succ]
      refine congrArg (List.cons st.views.length) ?_
      rw [hmain.1]
      rw [show (insertA st.views.length p.1 st.views).length =
            st.views.length + 1 from hlen]
    · rw [hmain.2]
      rw [show (insertA st.views.length p.1 st.views).length =
            st.views.length + 1 from hlen]
      have harith : st.views.length + 1 + rest.length =
          st.views.length + (rest.length + 1) := by omega
      rw [harith, List.length_cons]

/-- Claim C2 (amended): create_view assigns the current number of live views
as the id.  Hence in any sequence of create_view calls with no intervening
remove_view, the first call returns id 0, ids are assigned sequentially
0, 1, 2, …, each fresh, and no entry is overwritten (the registry grows by
one per call); after a remove_view, the assigned id can coincide with a live
id and the insert overwrites that entry. -/
theorem view_ids_sequential_without_removes (creates : List (View × Nat)) :
    (runViewOps (creates.map fun p => ViewOp.create p.1 p.2) emptyLoopState).1 =
      List.range creates.length ∧
    (runViewOps (creates.map fun p => ViewOp.create p.1 p.2)
        emptyLoopState).2.views.length = creates.length := by
  have h := runViewOps_creates_spec creates emptyLoopState (by simp [emptyLoopState])
  constructor
  · rw [h.1]
    simp [emptyLoopState, List.range_eq_range']
  · have := congrArg List.length h.2
    simpa [emptyLoopState] using this

/-! ## Claims about the Command Executor (C3, C5) -/

/-- Claim C3 as frozen is false: a Destroy command whose id is absent from the
corresponding registry is silently ignored — the executor returns normally
(no fatal branch) with the state unchanged — for all three categories. -/
theorem destroy_absent_not_fatal_cex :
    execCommand GLState.init (OpenglCommand.DestroyTexture 5) =
      some GLState.init ∧
    execCommand GLState.init (OpenglCommand.DestroyRenderBuffer 5) =
      some GLState.init ∧
    execCommand GLState.init (OpenglCommand.DestroyGeometry 5) =
      some GLState.init := by
  decide

/-- Claim C3 (amended): each Destroy command (DestroyTexture,
DestroyRenderTarget, DestroyGeometry) whose id is not present in its own
corresponding registry map — whatever the other two registries hold at that
id — is silently ignored by the Command Executor: the registries are
unchanged and execution continues; it is not treated as a fatal logic
error. -/
theorem destroy_absent_is_noop (s : GLState) (id : Nat) :
    (lookupA id s.textures = none →
      execCommand s (OpenglCommand.DestroyTexture id) = some s) ∧
    (lookupA id s.render_buffers = none →
      execCommand s (OpenglCommand.DestroyRenderBuffer id) = some s) ∧
    (lookupA id s.geometries = none →
      execCommand s (OpenglCommand.DestroyGeometry id) = some s) := by
  refine ⟨fun ht => ?_, fun hr => ?_, fun hg => ?_⟩
  · simp only [execCommand, destroy_texture, removeA_absent _ _ ht]
  · simp only [execCommand, destroy_render_buffer, removeA_absent _ _ hr]
  · simp only [execCommand, destroy_geometry, removeA_absent _ _ hg]

/-- Witness for the amended C3 theorem on a state holding render buffer 2 and
geometry 3: DestroyTexture 3 and DestroyRenderBuffer 3 are no-ops although
id 3 is live in the geometry registry, and DestroyGeometry 2 is a no-op
although id 2 is live in the render-buffer registry. -/
theorem destroy_absent_is_noop_witness :
    execCommand glFixture (OpenglCommand.DestroyTexture 3) = some glFixture ∧
    execCommand glFixture (OpenglCommand.DestroyRenderBuffer 3) =
      some glFixture ∧
    execCommand glFixture (OpenglCommand.DestroyGeometry 2) = some glFixture :=
  ⟨(destroy_absent_is_noop glFixture 3).1 (by decide),
   (destroy_absent_is_noop glFixture 3).2.1 (by decide),
   (destroy_absent_is_noop glFixture 2).2.2 (by decide)⟩

/-- Claim C5: CreateRenderTarget on a texture id present in the texture
registry adds a framebuffer entry under the given render-target id (the
freshly generated native handle) and execution continues; on any state in
which the texture id has no registry entry, the same command is fatal. -/
theorem create_render_target_semantics (s : GLState) (rb_id : Nat)
    (rb : RenderBuffer) (tex : Nat)
    (htex : lookupA rb.texture_id s.textures = some tex) :
    execCommand s (OpenglCommand.CreateRenderBuffer rb_id rb) =
      some { s with render_buffers := insertA rb_id s.nextHandle s.render_buffers,
                    nextHandle := s.nextHandle + 1 } ∧
    lookupA rb_id
        (insertA rb_id s.nextHandle s.render_buffers) = some s.nextHandle ∧
    ∀ s' : GLState, lookupA rb.texture_id s'.textures = none →
      execCommand s' (OpenglCommand.CreateRenderBuffer rb_id rb) = none := by
  refine ⟨?_, lookupA_insertA_self _ _ _, ?_⟩
  · simp [execCommand, create_render_buffer, htex]
  · intro s' h'
    simp [execCommand, create_render_buffer, h']

/-- Witness for the C5 theorem: one texture at id 7, creating render target 3
against it succeeds and records the framebuffer handle; on the freshly
initialized state, which has no texture 7, the same command is fatal. -/
theorem create_render_target_semantics_witness :
    execCommand { GLState.init with textures := [(7, 1)], nextHandle := 2 }
        (OpenglCommand.CreateRenderBuffer 3 ⟨7, 800, 600, false, false⟩) =
      some
        { GLState.init with
          textures := [(7, 1)]
          render_buffers := [(3, 2)]
          nextHandle := 3 } ∧
    lookupA 3 (insertA 3 2 ([] : Registry Nat)) = some 2 ∧
    execCommand GLState.init
        (OpenglCommand.CreateRenderBuffer 3 ⟨7, 800, 600, false, false⟩) =
      none :=
  ⟨(create_render_target_semantics
      { GLState.init with textures := [(7, 1)], nextHandle := 2 } 3
      ⟨7, 800, 600, false, false⟩ 1 (by decide)).1,
   (create_render_target_semantics
      { GLState.init with textures := [(7, 1)], nextHandle := 2 } 3
      ⟨7, 800, 600, false, false⟩ 1 (by decide)).2.1,
   (create_render_target_semantics
      { GLState.init with textures := [(7, 1)], nextHandle := 2 } 3
      ⟨7, 800, 600, false, false⟩ 1 (by decide)).2.2 GLState.init (by decide)⟩

/-! ## Claims about draw-list execution (C4, C10) -/

/-- Claim C4: a SubmitDrawList whose ClearRenderTarget targets are present in
the render-target registry and whose DrawGeometry operations reference
present geometry ids and present render-target ids executes every operation
without reaching a fatal (panicking) branch; draw-list operations leave the
registries unchanged. -/
theorem draw_list_no_fatal (s : GLState) (cmds : List GpuCommand)
    (h : ∀ c ∈ cmds, drawRefsPresent s c = true) :
    update_command_list s cmds = some s := by
  induction cmds with
  | nil => rfl
  | cons c rest ih =>
    have hc := h c (List.mem_cons_self c rest)
    have hrest : ∀ c' ∈ rest, drawRefsPresent s c' = true :=
      fun c' hc' => h c' (List.mem_cons_of_mem _ hc')
    cases c with
    | ClearRenderBuffer rb =>
      simp only [drawRefsPresent] at hc
      obtain ⟨x, hx⟩ := Option.isSome_iff_exists.mp hc
      simp [update_command_list, clear_render_buffer, hx, ih hrest]
    | DrawGeometry gs gid off cnt =>
      simp only [drawRefsPresent, Bool.and_eq_true] at hc
      obtain ⟨x, hx⟩ := Option.isSome_iff_exists.mp hc.1
      obtain ⟨y, hy⟩ := Option.isSome_iff_exists.mp hc.2
      simp [update_command_list, draw_geometry, hx, hy, ih hrest]

/-- Witness for the C4 theorem: a clear of render target 2 followed by a draw
of geometry 3 into render target 2 executes without a fatal branch. -/
theorem draw_list_no_fatal_witness :
    update_command_list glFixture
      [GpuCommand.ClearRenderBuffer 2,
       GpuCommand.DrawGeometry gpuStateFixture 3 0 6] = some glFixture :=
  draw_list_no_fatal glFixture
    [GpuCommand.ClearRenderBuffer 2,
     GpuCommand.DrawGeometry gpuStateFixture 3 0 6]
    (by decide)

/-- Claim C10: with the draw target and geometry present, draw_geometry never
reaches a fatal branch whatever the three texture-binding ids are, and each
binding whose id is absent (no id given, or an id with no texture-registry
entry) resolves to native texture handle 0. -/
theorem draw_texture_bindings (s : GLState) (gs : GpuState)
    (gid off cnt fbo : Nat) (g : Nat × Nat × Nat)
    (hrb : lookupA gs.render_buffer_id s.render_buffers = some fbo)
    (hg : lookupA gid s.geometries = some g) :
    draw_geometry s gs gid off cnt =
      some (s, (lookupTexHandle s.textures gs.texture_1_id,
                lookupTexHandle s.textures gs.texture_2_id,
                lookupTexHandle s.textures gs.texture_3_id)) ∧
    ∀ o : Option Nat, o.bind (fun id => lookupA id s.textures) = none →
      lookupTexHandle s.textures o = 0 := by
  constructor
  · simp [draw_geometry, hrb, hg]
  · intro o ho
    simp [lookupTexHandle, ho]

/-- Witness for the C10 theorem: drawing geometry 3 into render target 2 with
texture bindings (some 9, none, some 7), none of which is registered, binds
(0, 0, 0) and does not abort. -/
theorem draw_texture_bindings_witness :
    draw_geometry glFixture gpuStateFixture 3 0 6 =
      some (glFixture, (0, 0, 0)) :=
  (draw_texture_bindings glFixture gpuStateFixture 3 0 6 10 (4, 5, 6)
    (by decide) (by decide)).1

/-! ## Claims about the Render Loop (C6, C7, C9) -/

/-- Claim C6: processing one drained batch executes each task exactly once in
order against the shared state (the final state is the sequential threading
runSeq computes), collects into the next list exactly the tasks whose
execution returned true, and fires every present completion signal whatever
its task returned. -/
theorem processTasks_spec (ts : List RenderCallbackInfo) (st : LoopState) :
    (processTasks ts st).1 = (runSeq ts st).2 ∧
    (processTasks ts st).2.1 =
      ((ts.zip (runSeq ts st).1).filter (fun tb => tb.2)).map Prod.fst ∧
    (processTasks ts st).2.2 = ts.filterMap Prod.snd := by
  induction ts generalizing st with
  | nil => exact ⟨rfl, rfl, rfl⟩
  | cons t rest ih =>
    obtain ⟨f, c⟩ := t
    have h := ih (f st).1
    refine ⟨?_, ?_, ?_⟩
    · simpa [processTasks, runSeq] using h.1
    · simp only [processTasks, runSeq, List.zip_cons_cons, List.filter_cons]
      cases hb : (f st).2 <;> simp [h.2.1, hb]
    · simp only [processTasks, List.filterMap_cons]
      cases c <;> simp [h.2.2]

theorem refreshViews_marked_mem (vs : Registry View) (vu : Registry Nat)
    (now m : Nat) (h : m ∈ (refreshViews vs vu now).1) :
    m ∈ vs.map Prod.fst := by
  induction vs generalizing vu with
  | nil => simp [refreshViews] at h
  | cons p rest ih =>
    obtain ⟨j, v⟩ := p
    cases hl : lookupA j vu with
    | none =>
      simp only [refreshViews, hl] at h
      simpa using Or.inr (ih vu h)
    | some ts =>
      simp only [refreshViews, hl] at h
      by_cases hfresh : now - ts < 1000
      · rw [if_pos hfresh] at h
        simp only [List.mem_cons] at h
        rcases h with h | h
        · simp [h]
        · simpa using Or.inr (ih vu h)
      · rw [if_neg hfresh] at h
        simpa using Or.inr (ih (removeA j vu) h)

theorem refreshViews_lookup_not_mem (vs : Registry View) (vu : Registry Nat)
    (now id : Nat) (h : id ∉ vs.map Prod.fst) :
    lookupA id (refreshViews vs vu now).2 = lookupA id vu := by
  induction vs generalizing vu with
  | nil => rfl
  | cons p rest ih =>
    obtain ⟨j, v⟩ := p
    simp only [List.map_cons, List.mem_cons, not_or] at h
    cases hl : lookupA j vu with
    | none =>
      simp only [refreshViews, hl]
      exact ih vu h.2
    | some ts =>
      simp only [refreshViews, hl]
      by_cases hfresh : now - ts < 1000
      · rw [if_pos hfresh]
        simpa using ih vu h.2
      · rw [if_neg hfresh]
        rw [ih (removeA j vu) h.2]
        exact lookupA_removeA_ne j id vu h.1

/-- Claim C7: in one activity-throttling pass at time now, a live view whose
activity timestamp ts is present is marked needs-paint and keeps its
timestamp when now − ts < 1000 ms, and otherwise (now − ts ≥ 1000 ms) is not
marked and its timestamp entry is dropped from the activity map — so a view
idle for at least 1000 ms is excluded from forced repaint. -/
theorem activity_throttling (views : Registry View) (vu : Registry Nat)
    (now id ts : Nat)
    (hnodup : (views.map Prod.fst).Nodup)
    (hlive : id ∈ views.map Prod.fst)
    (hts : lookupA id vu = some ts) :
    (now - ts < 1000 →
      id ∈ (refreshViews views vu now).1 ∧
      lookupA id (refreshViews views vu now).2 = some ts) ∧
    (1000 ≤ now - ts →
      id ∉ (refreshViews views vu now).1 ∧
      lookupA id (refreshViews views vu now).2 = none) := by
  induction views generalizing vu with
  | nil => simp at hlive
  | cons p rest ih =>
    obtain ⟨j, v⟩ := p
    simp only [List.map_cons, List.nodup_cons] at hnodup
    simp only [List.map_cons, List.mem_cons] at hlive
    by_cases hij : j = id
    · subst hij
      simp only [refreshViews, hts]
      by_cases hfresh : now - ts < 1000
      · rw [if_pos hfresh]
        refine ⟨fun _ => ⟨List.mem_cons_self _ _, ?_⟩, fun hstale => absurd hfresh (by omega)⟩
        exact refreshViews_lookup_not_mem rest vu now j hnodup.1 ▸ hts
      · rw [if_neg hfresh]
        refine ⟨fun hf => absurd hf hfresh, fun _ => ⟨?_, ?_⟩⟩
        · intro hmem
          exact hnodup.1 (refreshViews_marked_mem rest (removeA j vu) now j hmem)
        · rw [refreshViews_lookup_not_mem rest (removeA j vu) now j hnodup.1]
          exact lookupA_removeA_self j vu
    · have hlive' : id ∈ rest.map Prod.fst := by
        rcases hlive with h | h
        · exact absurd h.symm hij
        · exact h
      cases hl : lookupA j vu with
      | none =>
        simp only [refreshViews, hl]
        exact ih vu hnodup.2 hlive' hts
      | some tsj =>
        simp only [refreshViews, hl]
        by_cases hfj : now - tsj < 1000
        · rw [if_pos hfj]
          have hrec := ih vu hnodup.2 hlive' hts
          refine ⟨fun hf => ?_, fun hs => ?_⟩
          · exact ⟨List.mem_cons_of_mem _ (hrec.1 hf).1, (hrec.1 hf).2⟩
          · refine ⟨?_, (hrec.2 hs).2⟩
            intro hmem
            rcases List.mem_cons.mp hmem with h | h
            · exact hij h.symm
            · exact (hrec.2 hs).1 h
        · rw [if_neg hfj]
          have hts' : lookupA id (removeA j vu) = some ts := by
            rw [lookupA_removeA_ne j id vu (fun he => hij he.symm)]
            exact hts
          exact ih (removeA j vu) hnodup.2 hlive' hts'

/-- Witness for the C7 theorem: two live views, view 0 active 500 ms ago is
marked and keeps its timestamp; a second application of the theorem inside
the same pass shows view 1, idle for 3400 ms, is unmarked and dropped. -/
theorem activity_throttling_witness :
    (3500 - 3000 < 1000 ∧
      (0 ∈ (refreshViews
          [(0, ⟨"a", 800, 600, false, none⟩), (1, ⟨"b", 800, 600, false, none⟩)]
          [(0, 3000), (1, 100)] 3500).1 ∧
        lookupA 0 (refreshViews
          [(0, ⟨"a", 800, 600, false, none⟩), (1, ⟨"b", 800, 600, false, none⟩)]
          [(0, 3000), (1, 100)] 3500).2 = some 3000)) ∧
    (1000 ≤ 3500 - 100 ∧
      (1 ∉ (refreshViews
          [(0, ⟨"a", 800, 600, false, none⟩), (1, ⟨"b", 800, 600, false, none⟩)]
          [(0, 3000), (1, 100)] 3500).1 ∧
        lookupA 1 (refreshViews
          [(0, ⟨"a", 800, 600, false, none⟩), (1, ⟨"b", 800, 600, false, none⟩)]
          [(0, 3000), (1, 100)] 3500).2 = none)) :=
  ⟨⟨by decide,
    (activity_throttling
      [(0, ⟨"a", 800, 600, false, none⟩), (1, ⟨"b", 800, 600, false, none⟩)]
      [(0, 3000), (1, 100)] 3500 0 3000
      (by decide) (by decide) (by decide)).1 (by decide)⟩,
   ⟨by decide,
    (activity_throttling
      [(0, ⟨"a", 800, 600, false, none⟩), (1, ⟨"b", 800, 600, false, none⟩)]
      [(0, 3000), (1, 100)] 3500 1 100
      (by decide) (by decide) (by decide)).2 (by decide)⟩⟩

/-- Claim C9: with the Task Mailbox holding no list, ultralightui_create_view
never executes its creation task (the mailbox state is unchanged) and
returns 0 — the same id a first successful creation returns — so the caller
cannot tell the refusal from a successful creation of view 0. -/
theorem create_view_mailbox_refused (v : View) (now : Nat) :
    ultralightui_create_view none v now = (0, none) ∧
    (∀ task : RenderCallback, renderer_run none task = (false, none)) ∧
    (ultralightui_create_view (some emptyLoopState) v now).1 = 0 :=
  ⟨rfl, fun _ => rfl, rfl⟩

end UltralightWrapping
